import Mathlib

/-!
Verification development for the parking-reservation engine
(SvelteKit + Firestore backend).

Modelling conventions, used throughout:

* Calendar instants are modelled as `Int` millisecond timestamps, exactly the
  values produced by JavaScript `new Date(x).getTime()`.  A date-only string
  such as `"2025-01-01"` parses to the timestamp of its UTC midnight, so a
  calendar date is represented by that timestamp.  `Option Int` models a date
  input: `none` is a string that fails to parse (JS `NaN` date), `some t` a
  string parsing to timestamp `t`.
* The ambient clock of `validateReservationPeriod` (`new Date()` and the
  values derived from it in the source) is passed explicitly as a `Clock`:
  `startOfToday` is `now.setHours(0,0,0,0)` and `maxFutureDate` is `now`
  shifted one calendar month ahead (`maxFutureDate.setMonth(getMonth()+1)`).
* The Firestore `reservations` collection is modelled as a
  `List Reservation`; `addDoc` appends, `updateDoc` maps over the list,
  a `where`-filtered `getDocs` is `List.filter`, `getDoc` by id is
  `List.find?`.  Opaque document ids are `String`s.
* JS `null` / absent / falsy-string arguments are modelled with `Option`
  (`none` = absent or falsy).
* Reservation records carry the fields the reservation logic reads or
  writes; pure audit timestamps (`createdAt`, `updatedAt`, `releasedAt`,
  `cancelledAt`) and the user-profile decoration of read endpoints do not
  influence any admission or availability decision and are omitted.
-/

namespace Parking

/-- Milliseconds in one day, the constant `1000 * 60 * 60 * 24` of the source. -/
def msPerDay : Int := 86400000

/-- The source's day count `Math.ceil((end - start) / (1000 * 60 * 60 * 24))`:
the ceiling of the real quotient, computed on integers.  For the positive
divisor `msPerDay`, integer division (`Int.ediv`) is floor division, and
`⌈a / d⌉ = ⌊(a + d - 1) / d⌋`. -/
def ceilDaysDiff (s e : Int) : Int :=
  (e - s + (msPerDay - 1)) / msPerDay

/- The `SHIFT_TYPES` table of `src/lib/parking.js`: each shift name is bound
to its wall-clock interval label, and reservations store the label. -/
namespace SHIFT_TYPES

def MORNING : String := "8:00-14:00"

def AFTERNOON : String := "14:00-21:00"

def FULL_DAY : String := "9:30-18:30"

end SHIFT_TYPES

/-- The `validShiftTypes` literal of the create endpoint
(`src/routes/api/parking/reservations/+server.js`, line 126). -/
def validShiftTypes : List String :=
  ["8:00-14:00", "14:00-21:00", "9:30-18:30"]

/-- A stored reservation record (Firestore document of the `reservations`
collection together with its document id). -/
structure Reservation where
  id : String
  userId : String
  spaceId : String
  startDate : Int
  endDate : Int
  shiftType : String
  status : String
deriving DecidableEq

/-- The ambient clock used by `validateReservationPeriod`:
`startOfToday = now.setHours(0,0,0,0)` and
`maxFutureDate = now` advanced by one calendar month. -/
structure Clock where
  startOfToday : Int
  maxFutureDate : Int
deriving DecidableEq

/-- Outcome of `validateReservationPeriod`, one constructor per distinct
`error` string returned by the source (§4.1 names them `INVALID_DATE`,
`PAST_DATE`, `TOO_FAR_AHEAD`, `END_BEFORE_START`, `SPAN_TOO_LONG`). -/
inductive PeriodResult where
  | valid
  | invalidDate
  | pastDate
  | tooFarAhead
  | endBeforeStart
  | spanTooLong
deriving DecidableEq

/-- `validateReservationPeriod(startDate, endDate)` of `src/lib/parking.js`
(lines 298-335), with the ambient clock explicit.  The checks run in source
order, first failure winning: parse, past date, more than a month ahead,
end before start, span over 7 days. -/
def validateReservationPeriod (c : Clock) (startDate endDate : Option Int) :
    PeriodResult :=
  match startDate, endDate with
  | some s, some e =>
    if s < c.startOfToday then .pastDate
    else if s > c.maxFutureDate then .tooFarAhead
    else if e < s then .endBeforeStart
    else if ceilDaysDiff s e > 7 then .spanTooLong
    else .valid
  | _, _ => .invalidDate

/-- The loop body of `checkSpaceAvailability` (`src/lib/parking.js`, lines
360-396): a stored reservation blocks the candidate window exactly when it is
not the excluded one, its date range overlaps the candidate range inclusively,
and the shifts collide (either is FULL_DAY, or they are equal); the
morning/afternoon branch and the final fall-through both just continue the
scan. -/
def reservationBlocks (requestStart requestEnd : Int) (shiftType : String)
    (excludeReservationId : Option String) (r : Reservation) : Bool :=
  if excludeReservationId = some r.id then false
  else if requestStart ≤ r.endDate ∧ requestEnd ≥ r.startDate then
    if r.shiftType = SHIFT_TYPES.FULL_DAY ∨ shiftType = SHIFT_TYPES.FULL_DAY then
      true
    else if r.shiftType = shiftType then true
    else false
  else false

/-- `checkSpaceAvailability(spaceId, startDate, endDate, shiftType,
excludeReservationId)` of `src/lib/parking.js` (lines 337-399).  The Firestore
query (`spaceId == .. && status == "active"`) becomes a filter over the whole
store; the scan returns `false` on the first blocking reservation and `true`
otherwise. -/
def checkSpaceAvailability (spaceId : String) (startDate endDate : Int)
    (shiftType : String) (store : List Reservation)
    (excludeReservationId : Option String) : Bool :=
  let existingReservations :=
    store.filter (fun r => r.spaceId == spaceId && r.status == "active")
  !(existingReservations.any
      (reservationBlocks startDate endDate shiftType excludeReservationId))

/-- Shift conflict exactly as the specification's compatibility matrix words
it: equal shifts conflict and FULL_DAY conflicts with every shift (so
MORNING/AFTERNOON, being distinct and neither FULL_DAY, do not conflict). -/
def claimShiftConflicts (existing requested : String) : Prop :=
  existing = requested ∨ existing = SHIFT_TYPES.FULL_DAY ∨
    requested = SHIFT_TYPES.FULL_DAY

instance (e r : String) : Decidable (claimShiftConflicts e r) := by
  unfold claimShiftConflicts; infer_instance

/-- The identifiers imported from `firebase/firestore` by the create endpoint
(`src/routes/api/parking/reservations/+server.js`, line 19).  In an ES module,
using an identifier that is neither imported nor otherwise declared throws a
`ReferenceError` at the point of use; the functions below consult this list
before any step that calls a firestore helper. -/
def reservationsPostImports : List String :=
  ["collection", "addDoc", "doc", "getDoc"]

/-- Document id of the parking-space document for a numeric space id:
the template `space-` followed by the number, as written at lines 167, 179
and 200 of the create endpoint. -/
def spaceDocId (spaceId : Int) : String :=
  "space-" ++ toString spaceId

/-- Outcome of the create endpoint, one constructor per distinct response
of `POST /api/parking/reservations` (lines 100-286).  `runtimeError` is the
outer `catch` answering a thrown exception with the generic 500
`"Failed to create reservation"`. -/
inductive CreateResult where
  | missingFields
  | invalidSpaceId
  | invalidShiftType
  | periodInvalid (r : PeriodResult)
  | documentRequired
  | spaceNotFound
  | conflict
  | uploadFailed
  | runtimeError
  | created (r : Reservation)
deriving DecidableEq

/-- The record seeded by the create endpoint (lines 198-208) before `addDoc`
assigns it the fresh id `newId`. -/
def newReservation (userId : String) (spaceId : Int) (s e : Int)
    (shiftType : String) (newId : String) : Reservation :=
  { id := newId, userId := userId, spaceId := spaceDocId spaceId,
    startDate := s, endDate := e, shiftType := shiftType, status := "active" }

/-- `POST /api/parking/reservations` from field validation onwards (lines
100-286 of `src/routes/api/parking/reservations/+server.js`), with the
ambient clock, the parking-space inventory (list of existing space document
ids), the reservation store, the fresh document id and the Google-Drive
upload outcome passed explicitly.  A date field is
`Option (Option Int)`: `none` when the field is missing or an empty (falsy)
string, `some none` when present but unparseable, `some (some t)` when it
parses to timestamp `t`.  `pdfFile` says whether a (validated) PDF accompanies
the request; `uploadOk` is the Drive collaborator's answer.  Steps that call
`updateDoc` or `deleteDoc` first look the identifier up among the module's
imports and, failing that, end in the outer catch (`runtimeError`) with the
store as it stands. -/
def createReservation (c : Clock) (spaces : List String)
    (store : List Reservation) (userId : String) (spaceId : Int)
    (startDate endDate : Option (Option Int)) (shiftType : String)
    (pdfFile : Bool) (uploadOk : Bool) (newId : String) :
    CreateResult × List Reservation :=
  if spaceId = 0 ∨ startDate = none ∨ endDate = none ∨ shiftType = "" then
    (.missingFields, store)
  else if spaceId < 1 ∨ spaceId > 20 then (.invalidSpaceId, store)
  else if shiftType ∉ validShiftTypes then (.invalidShiftType, store)
  else
    let pv := validateReservationPeriod c startDate.join endDate.join
    if pv ≠ .valid then (.periodInvalid pv, store)
    else
      let s := startDate.join.getD 0
      let e := endDate.join.getD 0
      if ceilDaysDiff s e > 2 ∧ ¬pdfFile then (.documentRequired, store)
      else if spaceDocId spaceId ∉ spaces then (.spaceNotFound, store)
      else if !(checkSpaceAvailability (spaceDocId spaceId) s e shiftType
          store none) then (.conflict, store)
      else
        let rec1 := newReservation userId spaceId s e shiftType newId
        let store1 := store ++ [rec1]
        if pdfFile then
          if uploadOk then
            if "updateDoc" ∈ reservationsPostImports then (.created rec1, store1)
            else (.runtimeError, store1)
          else
            if "deleteDoc" ∈ reservationsPostImports then
              (.uploadFailed, store1.filter (fun r => !(r.id == newId)))
            else (.runtimeError, store1)
        else (.created rec1, store1)

/-- Update request body of `PUT /api/parking/reservations/[reservationId]`
(line 18).  For each field `none` models an absent or falsy value; date values
are assumed parseable (the claims under study involve no malformed date in an
update).  `scheduleDocument` is passed through untouched by the handler and
affects nothing below, so it is omitted. -/
structure UpdateRequest where
  startDate : Option Int
  endDate : Option Int
  shiftType : Option String
deriving DecidableEq

/-- Outcome of the update endpoint, one constructor per distinct response. -/
inductive UpdateResult where
  | notFound
  | unauthorized
  | validationFailed (r : PeriodResult)
  | conflict
  | updated (r : Reservation)
deriving DecidableEq

/-- The shift used by the update handler wherever it defaults:
`shiftType || reservation.shiftType` (line 55), the falsy empty string
deferring to the stored shift. -/
def effectiveShift (rq : UpdateRequest) (res : Reservation) : String :=
  match rq.shiftType with
  | some sh => if sh = "" then res.shiftType else sh
  | none => res.shiftType

/-- The partial update object of lines 72-78 applied to the stored record:
each truthy field replaces the stored one (`updatedAt` audit stamp omitted). -/
def updatedRecord (rq : UpdateRequest) (res : Reservation) : Reservation :=
  { res with
    startDate := rq.startDate.getD res.startDate,
    endDate := rq.endDate.getD res.endDate,
    shiftType := effectiveShift rq res }

/-- The final `updateDoc` of the update handler: write the merged record back
at its id. -/
def applyReservationUpdate (store : List Reservation) (reservationId : String)
    (rq : UpdateRequest) (res : Reservation) : UpdateResult × List Reservation :=
  (.updated (updatedRecord rq res),
    store.map (fun r => if r.id == reservationId then updatedRecord rq res else r))

/-- `PUT /api/parking/reservations/[reservationId]` (lines 9-95 of
`src/routes/api/parking/reservations/[reservationId]/+server.js`): look the
record up, require ownership, and only when **both** dates are supplied
(`if (startDate && endDate)`, line 38) re-run period validation and the
availability check excluding the record's own id; then apply the partial
update. -/
def updateReservation (c : Clock) (store : List Reservation)
    (userId reservationId : String) (rq : UpdateRequest) :
    UpdateResult × List Reservation :=
  match store.find? (fun r => r.id == reservationId) with
  | none => (.notFound, store)
  | some res =>
    if res.userId ≠ userId then (.unauthorized, store)
    else if rq.startDate.isSome ∧ rq.endDate.isSome then
      let pv := validateReservationPeriod c rq.startDate rq.endDate
      if pv ≠ .valid then (.validationFailed pv, store)
      else if !(checkSpaceAvailability res.spaceId (rq.startDate.getD 0)
          (rq.endDate.getD 0) (effectiveShift rq res) store
          (some reservationId)) then
        (.conflict, store)
      else applyReservationUpdate store reservationId rq res
    else applyReservationUpdate store reservationId rq res

/-- Outcome of the release endpoint. -/
inductive ReleaseResult where
  | notFound
  | unauthorized
  | released
deriving DecidableEq

/-- `POST /api/parking/reservations/[reservationId]/release` (lines 5-54):
require ownership, then set `endDate` to the current calendar day and
`status` to `"released"` (`releasedAt` audit stamp omitted).  `today` is the
timestamp of `new Date().toISOString().split("T")[0]`, the current day at
midnight. -/
def releaseReservation (today : Int) (store : List Reservation)
    (userId reservationId : String) : ReleaseResult × List Reservation :=
  match store.find? (fun r => r.id == reservationId) with
  | none => (.notFound, store)
  | some res =>
    if res.userId ≠ userId then (.unauthorized, store)
    else
      (.released,
        store.map (fun r =>
          if r.id == reservationId then
            { r with endDate := today, status := "released" }
          else r))

/-- Per-space availability flags of the dashboard response (lines 76-84 of
`src/routes/api/parking/dashboard/+server.js`). -/
structure AvailabilityFlags where
  morning : Bool
  afternoon : Bool
  fullDay : Bool
deriving DecidableEq

/-- The reservations the dashboard attributes to one space on the target
date (lines 18-43): all active reservations, filtered to those whose
`[startDate, endDate]` range covers the date, then to the space. -/
def dashboardSpaceReservations (store : List Reservation) (spaceId : String)
    (targetDate : Int) : List Reservation :=
  (((store.filter (fun r => r.status == "active")).filter
      (fun r => decide (r.startDate ≤ targetDate) &&
        decide (r.endDate ≥ targetDate))).filter
    (fun r => r.spaceId == spaceId))

/-- The `isAvailable` object computed by the dashboard for one space (lines
76-84): note the source compares `shiftType` with the literal strings
`"MORNING"`, `"AFTERNOON"`, `"FULL_DAY"`. -/
def dashboardFlags (rs : List Reservation) : AvailabilityFlags :=
  { morning :=
      !(rs.any (fun r => r.shiftType == "MORNING" || r.shiftType == "FULL_DAY")),
    afternoon :=
      !(rs.any (fun r => r.shiftType == "AFTERNOON" || r.shiftType == "FULL_DAY")),
    fullDay := rs.length == 0 }

/-- The availability read of one create request: lines 178-184 of the create
endpoint, `checkSpaceAvailability` against the store as currently visible. -/
def createCheck (store : List Reservation) (rec1 : Reservation) : Bool :=
  checkSpaceAvailability rec1.spaceId rec1.startDate rec1.endDate
    rec1.shiftType store none

/-- The admission write of one create request: the `addDoc` of line 210. -/
def insertReservation (store : List Reservation) (rec1 : Reservation) :
    List Reservation :=
  store ++ [rec1]

/-- Two concurrent create requests under the schedule
read₁, read₂, write₁, write₂.  The handler awaits the availability read
(`getDocs` inside `checkSpaceAvailability`) and the insert (`addDoc`) as two
separate store operations with no enclosing transaction (`runTransaction`
appears nowhere in the repository), so the store may legally serve both reads
before either write; each request inserts exactly when its own read admitted
it.  Returns both admission decisions and the final store. -/
def raceSchedule (store : List Reservation) (rec1 rec2 : Reservation) :
    Bool × Bool × List Reservation :=
  let ok1 := createCheck store rec1
  let ok2 := createCheck store rec2
  let store1 := if ok1 then insertReservation store rec1 else store
  let store2 := if ok2 then insertReservation store1 rec2 else store1
  (ok1, ok2, store2)

/- Concrete records used by the individual claims below.  Millisecond
timestamps of calendar days: 2024-12-30 = 1735516800000,
2025-01-01 = 1735689600000, 2025-01-02 = 1735776000000,
2025-01-03 = 1735862400000, 2025-01-05 = 1736035200000,
2025-01-07 = 1736208000000, 2025-01-30 = 1738195200000. -/

/-- A create request by user u1 for space-1, 2025-01-01..2025-01-02, MORNING,
as the record it would insert. -/
def raceRequestA : Reservation :=
  { id := "res-1", userId := "u1", spaceId := "space-1",
    startDate := 1735689600000, endDate := 1735776000000,
    shiftType := SHIFT_TYPES.MORNING, status := "active" }

/-- A concurrent create request by user u2 for the same space and the same
fully overlapping MORNING window. -/
def raceRequestB : Reservation :=
  { id := "res-2", userId := "u2", spaceId := "space-1",
    startDate := 1735689600000, endDate := 1735776000000,
    shiftType := SHIFT_TYPES.MORNING, status := "active" }

/-- An active MORNING reservation (stored, as always, under the interval
label `"8:00-14:00"`) on space-1 covering 2025-01-01..2025-01-03. -/
def morningReservation : Reservation :=
  { id := "res-m", userId := "u1", spaceId := "space-1",
    startDate := 1735689600000, endDate := 1735862400000,
    shiftType := SHIFT_TYPES.MORNING, status := "active" }

/-- An active reservation for 2025-01-05..2025-01-07, i.e. entirely in the
future on 2025-01-01. -/
def futureReservation : Reservation :=
  { id := "res-f", userId := "u1", spaceId := "space-1",
    startDate := 1736035200000, endDate := 1736208000000,
    shiftType := SHIFT_TYPES.MORNING, status := "active" }

/-- `futureReservation` after being released on 2025-01-01. -/
def releasedFutureRecord : Reservation :=
  { futureReservation with endDate := 1735689600000, status := "released" }

/-- A clock on 2024-12-30 (so 2025-01-01 is two days ahead and within the
one-month horizon 2025-01-30). -/
def decClock : Clock :=
  { startOfToday := 1735516800000, maxFutureDate := 1738195200000 }

/-- C1: the claim asserts that the availability read and the insert of a
create request execute as one atomic transaction, so that of two concurrent
creates for the same space with fully overlapping MORNING windows exactly one
is admitted and the other observes CONFLICT.  The code runs the read
(`getDocs` inside `checkSpaceAvailability`, line 179) and the write (`addDoc`,
line 210) as two separate awaited store operations with no transaction, so
the schedule read₁ read₂ write₁ write₂ admits both requests: the final store
holds two active reservations on the same space whose windows fully overlap
and whose shifts are both MORNING (pairwise incompatible); a second read run
after the first insert would instead have rejected. -/
theorem create_race_admits_both :
    raceSchedule [] raceRequestA raceRequestB =
      (true, true, [raceRequestA, raceRequestB]) ∧
    raceRequestA.spaceId = raceRequestB.spaceId ∧
    raceRequestA.shiftType = SHIFT_TYPES.MORNING ∧
    raceRequestB.shiftType = SHIFT_TYPES.MORNING ∧
    raceRequestA.status = "active" ∧ raceRequestB.status = "active" ∧
    raceRequestA.startDate ≤ raceRequestB.endDate ∧
    raceRequestB.startDate ≤ raceRequestA.endDate ∧
    claimShiftConflicts raceRequestA.shiftType raceRequestB.shiftType ∧
    createCheck [raceRequestA] raceRequestB = false := by
  decide

/-- C3: the claim asserts `isAvailable.morning` is true exactly when no
matching reservation has shift MORNING or FULL_DAY.  Reservations store a
shift as its interval label (`SHIFT_TYPES.MORNING = "8:00-14:00"`, the only
values the create endpoint admits), while the dashboard compares `shiftType`
with the literal names `"MORNING"`/`"FULL_DAY"` (lines 77-84), which never
match: a space with an active MORNING reservation covering the date still
reports `morning = true`.  The zero-reservation clause of the claim does hold
(`fullDay` counts matches), as the last conjunct records. -/
theorem dashboard_morning_flag_misses_morning_reservation :
    dashboardSpaceReservations [morningReservation] "space-1" 1735776000000 =
      [morningReservation] ∧
    morningReservation.shiftType = SHIFT_TYPES.MORNING ∧
    (dashboardFlags [morningReservation]).morning = true ∧
    (dashboardFlags [morningReservation]).fullDay = false ∧
    dashboardFlags [] = { morning := true, afternoon := true, fullDay := true } := by
  decide

/-- C4: the claim asserts that when the document upload fails after the
reservation record is written, the record is removed before the error is
surfaced.  The cleanup line `await deleteDoc(...)` (line 228) names an
identifier the module never imports (line 19 imports only `collection`,
`addDoc`, `doc`, `getDoc`), so the cleanup throws `ReferenceError` and the
outer catch answers with the generic 500 while the just-created active record
stays in the store. -/
theorem create_upload_failure_leaves_orphan_record :
    createReservation decClock ["space-1"] [] "u1" 1
        (some (some 1735689600000)) (some (some 1736035200000))
        SHIFT_TYPES.MORNING true false "res-new" =
      (.runtimeError,
        [newReservation "u1" 1 1735689600000 1736035200000
          SHIFT_TYPES.MORNING "res-new"]) ∧
    (newReservation "u1" 1 1735689600000 1736035200000
        SHIFT_TYPES.MORNING "res-new").status = "active" ∧
    "deleteDoc" ∉ reservationsPostImports := by
  decide

/-- C6: the claim asserts a 2025-01-01..2025-01-05 create without a document
fails with DOCUMENT_REQUIRED before any write (which the first conjunct
confirms: the store is untouched), and that the same request with a valid
document succeeds.  The latter fails on the code: after the record is written
and the upload succeeds, the handler calls `updateDoc` (line 239), an
identifier the module never imports, so the request ends in the outer catch
as a 500 — with the record nevertheless left in the store. -/
theorem create_five_day_document_rule :
    createReservation decClock ["space-1"] [] "u1" 1
        (some (some 1735689600000)) (some (some 1736035200000))
        SHIFT_TYPES.MORNING false true "res-new" = (.documentRequired, []) ∧
    createReservation decClock ["space-1"] [] "u1" 1
        (some (some 1735689600000)) (some (some 1736035200000))
        SHIFT_TYPES.MORNING true true "res-new" =
      (.runtimeError,
        [newReservation "u1" 1 1735689600000 1736035200000
          SHIFT_TYPES.MORNING "res-new"]) ∧
    "updateDoc" ∉ reservationsPostImports := by
  decide

/-- C7 counterexample: the claim asserts every period spanning more than 7
days is rejected with SPAN_TOO_LONG regardless of the other fields, in
particular regardless of a past start date.  The source checks the rules in
order with the past-date rule first: the 88-day period
2024-10-01..2024-12-28, checked on 2024-12-30, answers PAST_DATE, not
SPAN_TOO_LONG. -/
theorem validateReservationPeriod_span_counterexample :
    validateReservationPeriod decClock
        (some 1727740800000) (some 1735344000000) = .pastDate ∧
    ceilDaysDiff 1727740800000 1735344000000 > 7 ∧
    PeriodResult.pastDate ≠ PeriodResult.spanTooLong := by
  decide

/-- C8: the claim asserts every stored reservation satisfies
endDate ≥ startDate at all times and that release preserves this for every
active reservation, including one whose startDate is after the current day.
Releasing `futureReservation` (2025-01-05..2025-01-07) on 2025-01-01 clamps
`endDate` to 2025-01-01, producing a stored record with
endDate < startDate. -/
theorem release_future_reservation_breaks_invariant :
    releaseReservation 1735689600000 [futureReservation] "u1" "res-f" =
      (.released, [releasedFutureRecord]) ∧
    releasedFutureRecord.status = "released" ∧
    releasedFutureRecord.endDate < releasedFutureRecord.startDate := by
  decide

/-- One loop step of the availability scan blocks exactly when the
reservation is not the excluded one, the inclusive date ranges intersect and
the shifts collide (either is FULL_DAY or they are equal). -/
theorem reservationBlocks_eq_true (s e : Int) (sh : String)
    (ex : Option String) (r : Reservation) :
    reservationBlocks s e sh ex r = true ↔
      ex ≠ some r.id ∧ s ≤ r.endDate ∧ e ≥ r.startDate ∧
        claimShiftConflicts r.shiftType sh := by
  unfold reservationBlocks claimShiftConflicts
  split_ifs with h1 h2 h3 h4 <;> simp_all

/-- The Firestore query filter of `checkSpaceAvailability` is the identity on
a list of reservations that all belong to the space and are active. -/
theorem availability_filter_eq_self (spaceId : String) (l : List Reservation)
    (hl : ∀ r ∈ l, r.spaceId = spaceId ∧ r.status = "active") :
    l.filter (fun r => r.spaceId == spaceId && r.status == "active") = l := by
  apply List.filter_eq_self.mpr
  intro a ha
  obtain ⟨h1, h2⟩ := hl a ha
  simp [h1, h2]

/-- C2: for every space, candidate window, shift and list of existing active
reservations, `checkSpaceAvailability` answers `false` exactly when some
reservation other than the excluded one overlaps the window under inclusive
intersection (candidateStart ≤ existingEnd and candidateEnd ≥ existingStart)
and has a conflicting shift per the compatibility matrix (equal shifts
conflict, FULL_DAY conflicts with everything, MORNING/AFTERNOON coexist);
with no existing reservations it answers `true`. -/
theorem checkSpaceAvailability_matches_spec (spaceId : String)
    (startDate endDate : Int) (shiftType : String) (l : List Reservation)
    (ex : Option String) (hsh : shiftType ∈ validShiftTypes)
    (hl : ∀ r ∈ l, r.spaceId = spaceId ∧ r.status = "active" ∧
      r.shiftType ∈ validShiftTypes) :
    (checkSpaceAvailability spaceId startDate endDate shiftType l ex = false ↔
      ∃ r ∈ l, ex ≠ some r.id ∧ startDate ≤ r.endDate ∧
        endDate ≥ r.startDate ∧ claimShiftConflicts r.shiftType shiftType) ∧
    (l = [] →
      checkSpaceAvailability spaceId startDate endDate shiftType l ex = true) := by
  have hfil : l.filter (fun r => r.spaceId == spaceId && r.status == "active") = l :=
    availability_filter_eq_self spaceId l (fun r hr => ⟨(hl r hr).1, (hl r hr).2.1⟩)
  constructor
  · unfold checkSpaceAvailability
    rw [hfil]
    simp only [Bool.not_eq_false', List.any_eq_true, reservationBlocks_eq_true]
  · intro h
    subst h
    rfl

/-- C2 witness: on space-1 with a single stored active MORNING reservation
fully covering the candidate MORNING window, the characterization yields the
concrete rejection. -/
theorem checkSpaceAvailability_matches_spec_witness :
    SHIFT_TYPES.MORNING ∈ validShiftTypes ∧
    checkSpaceAvailability "space-1" 1735689600000 1735776000000
      SHIFT_TYPES.MORNING [morningReservation] none = false := by
  refine ⟨by decide, ?_⟩
  exact (checkSpaceAvailability_matches_spec "space-1" 1735689600000 1735776000000
    SHIFT_TYPES.MORNING [morningReservation] none (by decide)
    (by intro r hr; simp only [List.mem_singleton] at hr; subst hr; exact ⟨rfl, rfl, by decide⟩)).1.mpr
    (by decide)

/-- Scanning a list with `List.any` is invariant under permutation of the
list. -/
theorem any_eq_of_perm {α : Type} (p : α → Bool) {l₁ l₂ : List α}
    (h : l₁.Perm l₂) : l₁.any p = l₂.any p := by
  rw [Bool.eq_iff_iff, List.any_eq_true, List.any_eq_true]
  constructor
  · rintro ⟨x, hx, hp⟩
    exact ⟨x, h.mem_iff.mp hx, hp⟩
  · rintro ⟨x, hx, hp⟩
    exact ⟨x, h.mem_iff.mpr hx, hp⟩

/-- C9: `checkSpaceAvailability` returns the same decision for every
permutation of the existing-reservation list, for every candidate request
and optional excluded id: the scan's outcome is order-independent. -/
theorem checkSpaceAvailability_order_independent (spaceId : String)
    (startDate endDate : Int) (shiftType : String) (ex : Option String)
    {l₁ l₂ : List Reservation} (h : l₁.Perm l₂) :
    checkSpaceAvailability spaceId startDate endDate shiftType l₁ ex =
      checkSpaceAvailability spaceId startDate endDate shiftType l₂ ex := by
  simp only [checkSpaceAvailability]
  have hp := h.filter (fun r => r.spaceId == spaceId && r.status == "active")
  rw [any_eq_of_perm
    (reservationBlocks startDate endDate shiftType ex) hp]

/-- C9 witness: the two orderings of a concrete two-reservation list give
the same (rejecting) availability decision. -/
theorem checkSpaceAvailability_order_independent_witness :
    checkSpaceAvailability "space-1" 1735689600000 1735776000000
      SHIFT_TYPES.MORNING [morningReservation, futureReservation] none =
    checkSpaceAvailability "space-1" 1735689600000 1735776000000
      SHIFT_TYPES.MORNING [futureReservation, morningReservation] none := by
  exact checkSpaceAvailability_order_independent "space-1" 1735689600000
    1735776000000 SHIFT_TYPES.MORNING none
    (List.Perm.swap futureReservation morningReservation [])

/-- An active MORNING reservation owned by u1, the target of the shift-only
update of claim C5. -/
def resAOwn : Reservation :=
  { id := "res-a", userId := "u1", spaceId := "space-1",
    startDate := 1735689600000, endDate := 1735776000000,
    shiftType := SHIFT_TYPES.MORNING, status := "active" }

/-- An active AFTERNOON reservation by another user on the same space and the
same window. -/
def resBOther : Reservation :=
  { id := "res-b", userId := "u2", spaceId := "space-1",
    startDate := 1735689600000, endDate := 1735776000000,
    shiftType := SHIFT_TYPES.AFTERNOON, status := "active" }

/-- `resAOwn` after its shift is switched to AFTERNOON. -/
def shiftedRecA : Reservation :=
  { resAOwn with shiftType := SHIFT_TYPES.AFTERNOON }

/-- The shift-only update request switching to AFTERNOON. -/
def shiftOnlyRequest : UpdateRequest :=
  { startDate := none, endDate := none, shiftType := some SHIFT_TYPES.AFTERNOON }

/-- C5 counterexample: the claim asserts an update that changes only
`shiftType` still re-validates availability with the dates in effect.  With
u2 holding an AFTERNOON reservation on the same space and window, u1's
shift-only switch of `res-a` from MORNING to AFTERNOON is persisted by the
code even though the availability check over the effective window and shift
(excluding `res-a` itself) rejects: the handler guards the whole
re-validation behind `if (startDate && endDate)` (line 38) and no dates were
supplied. -/
theorem update_shift_only_counterexample :
    updateReservation decClock [resAOwn, resBOther] "u1" "res-a"
        shiftOnlyRequest =
      (.updated shiftedRecA, [shiftedRecA, resBOther]) ∧
    shiftedRecA.shiftType = resBOther.shiftType ∧
    checkSpaceAvailability "space-1" 1735689600000 1735776000000
      SHIFT_TYPES.AFTERNOON [resAOwn, resBOther] (some "res-a") = false := by
  decide

/-- C5 amended: updateReservation requires the caller to own the
reservation; only when both startDate and endDate are supplied does it re-run
period validation and the availability check excluding the reservation's own
identifier (the shift defaulting to the stored one); an update supplying only
`shiftType` — or only one date — is applied without re-checking
availability. -/
theorem updateReservation_amended (c : Clock) (store : List Reservation)
    (uid rid : String) (rq : UpdateRequest) (res : Reservation)
    (hfind : store.find? (fun r => r.id == rid) = some res) :
    (res.userId ≠ uid →
      updateReservation c store uid rid rq = (.unauthorized, store)) ∧
    (res.userId = uid → (rq.startDate = none ∨ rq.endDate = none) →
      updateReservation c store uid rid rq =
        applyReservationUpdate store rid rq res) ∧
    (res.userId = uid → rq.startDate.isSome → rq.endDate.isSome →
      validateReservationPeriod c rq.startDate rq.endDate ≠ .valid →
      updateReservation c store uid rid rq =
        (.validationFailed (validateReservationPeriod c rq.startDate rq.endDate),
          store)) ∧
    (res.userId = uid → rq.startDate.isSome → rq.endDate.isSome →
      validateReservationPeriod c rq.startDate rq.endDate = .valid →
      checkSpaceAvailability res.spaceId (rq.startDate.getD 0)
        (rq.endDate.getD 0) (effectiveShift rq res) store (some rid) = false →
      updateReservation c store uid rid rq = (.conflict, store)) := by
  refine ⟨?_, ?_, ?_, ?_⟩
  · intro hne
    simp only [updateReservation, hfind]
    rw [if_pos hne]
  · intro he hd
    simp only [updateReservation, hfind]
    rw [if_neg (fun h => h he), if_neg ?_]
    rcases hd with h | h <;> rw [h] <;> simp
  · intro he h1 h2 hpv
    simp only [updateReservation, hfind]
    rw [if_neg (fun h => h he), if_pos ⟨h1, h2⟩, if_pos hpv]
  · intro he h1 h2 hpv hav
    simp only [updateReservation, hfind]
    rw [if_neg (fun h => h he), if_pos ⟨h1, h2⟩, if_neg ?_, if_pos ?_]
    · rw [hav]
      rfl
    · exact fun h => h hpv

/-- C5 witness: at the concrete store of the counterexample, a stranger's
update is refused and the owner's shift-only update is applied as the plain
partial update. -/
theorem updateReservation_amended_witness :
    updateReservation decClock [resAOwn, resBOther] "u2" "res-a"
        shiftOnlyRequest = (.unauthorized, [resAOwn, resBOther]) ∧
    updateReservation decClock [resAOwn, resBOther] "u1" "res-a"
        shiftOnlyRequest =
      applyReservationUpdate [resAOwn, resBOther] "res-a" shiftOnlyRequest
        resAOwn := by
  refine ⟨?_, ?_⟩
  · exact (updateReservation_amended decClock [resAOwn, resBOther] "u2" "res-a"
      shiftOnlyRequest resAOwn (by decide)).1 (by decide)
  · exact (updateReservation_amended decClock [resAOwn, resBOther] "u1" "res-a"
      shiftOnlyRequest resAOwn (by decide)).2.1 (by decide) (Or.inl rfl)

/-- C7 amended: for dates that parse, whenever the earlier rules pass — the
start date is not before the current day and not more than one calendar month
ahead — a period whose day count (ceiling of endDate − startDate in whole
days) exceeds 7 is rejected with SPAN_TOO_LONG; a span that large also rules
out END_BEFORE_START, so no other check can fire first. -/
theorem validateReservationPeriod_span_amended (c : Clock) (s e : Int)
    (h1 : ¬s < c.startOfToday) (h2 : ¬s > c.maxFutureDate)
    (h3 : ceilDaysDiff s e > 7) :
    validateReservationPeriod c (some s) (some e) = .spanTooLong := by
  have he : ¬e < s := by
    unfold ceilDaysDiff msPerDay at h3
    omega
  simp only [validateReservationPeriod]
  rw [if_neg h1, if_neg h2, if_neg he, if_pos h3]

/-- C7 witness: a 10-day period 2025-01-01..2025-01-10 checked on
2024-12-30 satisfies the earlier rules and is rejected as SPAN_TOO_LONG. -/
theorem validateReservationPeriod_span_amended_witness :
    (¬(1735689600000 : Int) < decClock.startOfToday) ∧
    (¬(1735689600000 : Int) > decClock.maxFutureDate) ∧
    ceilDaysDiff 1735689600000 1736467200000 > 7 ∧
    validateReservationPeriod decClock (some 1735689600000)
      (some 1736467200000) = .spanTooLong := by
  refine ⟨by decide, by decide, by decide, ?_⟩
  exact validateReservationPeriod_span_amended decClock 1735689600000
    1736467200000 (by decide) (by decide) (by decide)

/-- C10: `updateReservation` persists any provided truthy `shiftType`
without checking membership in the shift enumeration — after a shift-only
update the stored record's shift is the arbitrary string — while
`createReservation` rejects a shift outside the enumeration with the
invalid-shift error before any write, leaving the store untouched. -/
theorem update_persists_unvalidated_shift (s : String)
    (hs1 : s ∉ validShiftTypes) (hs2 : s ≠ "") (c : Clock)
    (store : List Reservation) (uid rid : String) (res : Reservation)
    (hfind : store.find? (fun r => r.id == rid) = some res)
    (hown : res.userId = uid) (spaces : List String)
    (store2 : List Reservation) (uid2 : String) (spaceId : Int)
    (startDate endDate : Option (Option Int)) (hsp1 : 1 ≤ spaceId)
    (hsp2 : spaceId ≤ 20) (hsd : startDate ≠ none) (hed : endDate ≠ none)
    (pdf up : Bool) (newId : String) :
    ((updateReservation c store uid rid
        { startDate := none, endDate := none, shiftType := some s }).1 =
      .updated { res with shiftType := s } ∧
      ({ res with shiftType := s } : Reservation).shiftType ∉ validShiftTypes) ∧
    createReservation c spaces store2 uid2 spaceId startDate endDate s
        pdf up newId = (.invalidShiftType, store2) := by
  refine ⟨⟨?_, hs1⟩, ?_⟩
  · simp only [updateReservation, hfind]
    rw [if_neg (fun h => h hown), if_neg (by simp)]
    simp [applyReservationUpdate, updatedRecord, effectiveShift, hs2]
  · simp only [createReservation]
    rw [if_neg ?_, if_neg ?_, if_pos hs1]
    · exact fun h => by omega
    · rintro (h | h | h | h)
      · omega
      · exact hsd h
      · exact hed h
      · exact hs2 h

/-- C10 witness: the shift string BANANA, not in the enumeration, is
persisted by a shift-only update of an existing owned reservation, while a
create carrying it is rejected before any write. -/
theorem update_persists_unvalidated_shift_witness :
    ("BANANA" ∉ validShiftTypes) ∧
    (updateReservation decClock [futureReservation] "u1" "res-f"
        { startDate := none, endDate := none, shiftType := some "BANANA" }).1 =
      .updated { futureReservation with shiftType := "BANANA" } ∧
    createReservation decClock ["space-1"] [] "u1" 1
        (some (some 1735689600000)) (some (some 1735776000000)) "BANANA"
        false true "res-new" = (.invalidShiftType, []) := by
  refine ⟨by decide, ?_, ?_⟩
  · exact (update_persists_unvalidated_shift "BANANA" (by decide) (by decide)
      decClock [futureReservation] "u1" "res-f" futureReservation (by decide)
      rfl ["space-1"] [] "u1" 1 (some (some 1735689600000))
      (some (some 1735776000000)) (by decide) (by decide) (by decide)
      (by decide) false true "res-new").1.1
  · exact (update_persists_unvalidated_shift "BANANA" (by decide) (by decide)
      decClock [futureReservation] "u1" "res-f" futureReservation (by decide)
      rfl ["space-1"] [] "u1" 1 (some (some 1735689600000))
      (some (some 1735776000000)) (by decide) (by decide) (by decide)
      (by decide) false true "res-new").2

end Parking
